import Mathlib

/-!
Shallow embedding of the Prana BLE integration core (`src/protocol.py` and
`src/coordinator.py`) and proofs about its natural-language specification.

Modelling conventions:
* A Python `bytes`/`bytearray` is a `List Nat`; a well-formed byte buffer has
  every element `< 256` (bytearray guarantees this by construction), and
  theorems that depend on byte bounds carry that hypothesis explicitly.
* Python exceptions become an `Except` error type with one constructor per
  Python exception class that can escape the translated code.
* Python `int(x / 10)` on a byte value is embedded as natural division by 10
  (exact for arguments `0..255`, where IEEE double division followed by
  truncation agrees with integer division).
* Python `int(log2(v) + 1)` on a byte value `1..255` is embedded as
  `Nat.log2 v + 1` (IEEE double `log2` is exact on powers of two and is more
  than 0.005 away from any integer on non-powers below 256, so truncation
  agrees with `floor (log2 v) + 1`).
* Python `float` results of the form `unpacked / 10` are embedded as exact
  rationals `ℚ`.
* Python's bitwise `&` on arbitrary-precision (two's-complement) integers is
  embedded as Mathlib's `Int.land`.
-/

/-- `COMMAND_PREFIX = b"\xBE\xEF"` from `src/protocol.py`. -/
def COMMAND_PREFIX_BYTES : List Nat := [0xBE, 0xEF]

def STATE_INDEX_POWER : Nat := 10

def STATE_INDEX_POWER_IN : Nat := 28

def STATE_INDEX_POWER_OUT : Nat := 32

def STATE_INDEX_BRIGHTNESS : Nat := 12

def STATE_INDEX_MINI_HEATING : Nat := 14

def STATE_INDEX_NIGHT_MODE : Nat := 16

def STATE_INDEX_BOOST_MODE : Nat := 18

def STATE_INDEX_AUTO_MODE : Nat := 20

def STATE_INDEX_FLOWS_LOCKED : Nat := 22

def STATE_INDEX_SPEED : Nat := 26

def STATE_INDEX_SPEED_IN : Nat := 30

def STATE_INDEX_SPEED_OUT : Nat := 34

def STATE_INDEX_WINTER_MODE : Nat := 42

def STATE_INDEX_TEMP_IN : Nat := 48

def STATE_INDEX_TEMP_OUTSIDE : Nat := 51

def STATE_INDEX_TEMP_OUT : Nat := 54

def STATE_INDEX_HUMIDITY : Nat := 60

def STATE_INDEX_CO2 : Nat := 61

def STATE_INDEX_TVOC : Nat := 63

def STATE_INDEX_PRESSURE : Nat := 77

def STATE_INDEX_DISPLAY : Nat := 99

def MAX_SPEED : Nat := 10

def MAX_BRIGHTNESS : Nat := 6

/-- Python exceptions that can escape `PranaState.update`:
`ValueError` (the explicit `raise` on a bad payload start, the exception the
spec calls `MalformedFrame`), `IndexError` (out-of-range `data[i]`), and
`struct.error` (`struct.unpack_from` past the end of the buffer). -/
inductive UpdateErr where
  | valueError
  | indexError
  | structError
deriving DecidableEq, Repr

/-- `data[i]` on a `bytearray`: the byte, or `IndexError` past the end. -/
def byteE (data : List Nat) (i : Nat) : Except UpdateErr Nat :=
  if data.length ≤ i then .error .indexError else .ok (data.getD i 0)

/-- `struct.unpack_from(">h", data, key)[0] & 0b0011_1111_1111_1111` from
`PranaState.unpack`: read two bytes at `key` as a big-endian signed 16-bit
two's-complement integer, then bitwise-AND the (possibly negative) result
with `0x3FFF`.  `struct.unpack_from` raises `struct.error` when fewer than
two bytes are available at `key`. -/
def unpackE (data : List Nat) (key : Nat) : Except UpdateErr Int :=
  if data.length < key + 2 then .error .structError
  else
    let u := data.getD key 0 * 256 + data.getD (key + 1) 0
    let s : Int := if u < 32768 then (u : Int) else (u : Int) - 65536
    .ok (Int.land s 16383)

/-- The `DISPLAY` lookup table of `src/protocol.py`, as raw byte ↦ name;
`DISPLAY.get` returns `None` on a missing key. -/
def DISPLAY_NAME : Nat → Option String
  | 0x0 => some "fan"
  | 0x1 => some "temp_in"
  | 0x2 => some "temp_out"
  | 0x3 => some "co2"
  | 0x4 => some "tvoc"
  | 0x5 => some "humidity"
  | 0x6 => some "efficiency"
  | 0x7 => some "pressure"
  | 0x9 => some "date"
  | 0xA => some "time"
  | _ => none

/-- The mode-selection chain of `PranaState.update` (lines 158–167),
including its short-circuit reads:  `data[STATE_INDEX_BOOST_MODE]` is read
only when the auto byte is neither 1 nor 2, and `data[STATE_INDEX_NIGHT_MODE]`
only when additionally the boost byte is not 1. -/
def modeE (data : List Nat) : Except UpdateErr (Option String) := do
  let autoByte ← byteE data STATE_INDEX_AUTO_MODE
  if autoByte = 1 then return some "auto"
  if autoByte = 2 then return some "auto_plus"
  let boostByte ← byteE data STATE_INDEX_BOOST_MODE
  if boostByte = 1 then return some "boost"
  let nightByte ← byteE data STATE_INDEX_NIGHT_MODE
  if nightByte = 1 then return some "night"
  return none

/-- The speed selection of `PranaState.update` (lines 174–178):
`data[STATE_INDEX_SPEED]` is read only when `flows_locked` holds. -/
def speedE (data : List Nat) (flowsLocked : Bool) (speedIn speedOut : Nat) :
    Except UpdateErr Nat := do
  if flowsLocked then
    let s ← byteE data STATE_INDEX_SPEED
    return s / 10
  return max speedIn speedOut

/-- The `PranaState` dataclass: every field defaults to `None` and is
overwritten by `update`. -/
structure PranaState where
  power : Option Bool := none
  speed : Option Nat := none
  power_in : Option Bool := none
  speed_in : Option Nat := none
  power_out : Option Bool := none
  speed_out : Option Nat := none
  mode : Option String := none
  brightness : Option Nat := none
  display : Option String := none
  flows_locked : Option Bool := none
  mini_heating : Option Bool := none
  winter_mode : Option Bool := none
  temp_in : Option ℚ := none
  temp_out : Option ℚ := none
  temp_outside : Option ℚ := none
  humidity : Option Int := none
  pressure : Option Int := none
  tvoc : Option Int := none
  co2 : Option Int := none
deriving DecidableEq, Repr

/-- `PranaState()` with all dataclass defaults. -/
def emptyPranaState : PranaState := {}

/-- `PranaState.update(self, data)` from `src/protocol.py` lines 146–194,
with reads and the initial prefix check in source order.  On a Python
exception the partially mutated object is discarded and only the exception
is reported (no claim inspects the state after a failed decode beyond the
`ValueError` case, which precedes every field assignment). -/
def PranaState.update (st : PranaState) (data : List Nat) :
    Except UpdateErr PranaState :=
  if data.take 2 ≠ COMMAND_PREFIX_BYTES then .error .valueError
  else do
    let powerByte ← byteE data STATE_INDEX_POWER
    let powerInByte ← byteE data STATE_INDEX_POWER_IN
    let powerOutByte ← byteE data STATE_INDEX_POWER_OUT
    let miniHeatingByte ← byteE data STATE_INDEX_MINI_HEATING
    let winterModeByte ← byteE data STATE_INDEX_WINTER_MODE
    let mode ← modeE data
    let flowsLockedByte ← byteE data STATE_INDEX_FLOWS_LOCKED
    let speedInByte ← byteE data STATE_INDEX_SPEED_IN
    let speedOutByte ← byteE data STATE_INDEX_SPEED_OUT
    let speed ← speedE data (flowsLockedByte ≠ 0) (speedInByte / 10) (speedOutByte / 10)
    let brightnessValue ← byteE data STATE_INDEX_BRIGHTNESS
    let displayByte ← byteE data STATE_INDEX_DISPLAY
    let humidityByte ← byteE data STATE_INDEX_HUMIDITY
    let pressure ← unpackE data STATE_INDEX_PRESSURE
    let tempIn ← unpackE data STATE_INDEX_TEMP_IN
    let tempOutside ← unpackE data STATE_INDEX_TEMP_OUTSIDE
    let tempOut ← unpackE data STATE_INDEX_TEMP_OUT
    let co2 ← unpackE data STATE_INDEX_CO2
    let tvoc ← unpackE data STATE_INDEX_TVOC
    return { st with
      power := some (powerByte ≠ 0)
      power_in := some (powerInByte ≠ 0)
      power_out := some (powerOutByte ≠ 0)
      mini_heating := some (miniHeatingByte = 1)
      winter_mode := some (winterModeByte = 1)
      mode := mode
      flows_locked := some (flowsLockedByte ≠ 0)
      speed_in := some (speedInByte / 10)
      speed_out := some (speedOutByte / 10)
      speed := some speed
      brightness := some (if brightnessValue = 0 then 0 else Nat.log2 brightnessValue + 1)
      display := DISPLAY_NAME displayByte
      humidity := some ((humidityByte : Int) - 128)
      pressure := some pressure
      temp_in := some ((tempIn : ℚ) / 10)
      temp_outside := some ((tempOutside : ℚ) / 10)
      temp_out := some ((tempOut : ℚ) / 10)
      co2 := some co2
      tvoc := some tvoc }

/-- The value `PranaState.unpack` produces when enough bytes are available:
big-endian signed 16-bit read at `key`, then bitwise-AND with `0x3FFF`. -/
def unpackVal (data : List Nat) (key : Nat) : Int :=
  let u := data.getD key 0 * 256 + data.getD (key + 1) 0
  Int.land (if u < 32768 then (u : Int) else (u : Int) - 65536) 16383

/-- Value-level form of the mode-selection chain (for stating results). -/
def decodeMode (data : List Nat) : Option String :=
  if data.getD STATE_INDEX_AUTO_MODE 0 = 1 then some "auto"
  else if data.getD STATE_INDEX_AUTO_MODE 0 = 2 then some "auto_plus"
  else if data.getD STATE_INDEX_BOOST_MODE 0 = 1 then some "boost"
  else if data.getD STATE_INDEX_NIGHT_MODE 0 = 1 then some "night"
  else none

/-- Value-level form of the decoded state a successful `update` produces on a
buffer with the correct start bytes and at least 100 bytes. -/
def decodeFrame (st : PranaState) (data : List Nat) : PranaState :=
  { st with
    power := some (data.getD STATE_INDEX_POWER 0 ≠ 0)
    power_in := some (data.getD STATE_INDEX_POWER_IN 0 ≠ 0)
    power_out := some (data.getD STATE_INDEX_POWER_OUT 0 ≠ 0)
    mini_heating := some (data.getD STATE_INDEX_MINI_HEATING 0 = 1)
    winter_mode := some (data.getD STATE_INDEX_WINTER_MODE 0 = 1)
    mode := decodeMode data
    flows_locked := some (data.getD STATE_INDEX_FLOWS_LOCKED 0 ≠ 0)
    speed_in := some (data.getD STATE_INDEX_SPEED_IN 0 / 10)
    speed_out := some (data.getD STATE_INDEX_SPEED_OUT 0 / 10)
    speed := some (if data.getD STATE_INDEX_FLOWS_LOCKED 0 ≠ 0
      then data.getD STATE_INDEX_SPEED 0 / 10
      else max (data.getD STATE_INDEX_SPEED_IN 0 / 10) (data.getD STATE_INDEX_SPEED_OUT 0 / 10))
    brightness := some (if data.getD STATE_INDEX_BRIGHTNESS 0 = 0 then 0
      else Nat.log2 (data.getD STATE_INDEX_BRIGHTNESS 0) + 1)
    display := DISPLAY_NAME (data.getD STATE_INDEX_DISPLAY 0)
    humidity := some ((data.getD STATE_INDEX_HUMIDITY 0 : Int) - 128)
    pressure := some (unpackVal data STATE_INDEX_PRESSURE)
    temp_in := some ((unpackVal data STATE_INDEX_TEMP_IN : ℚ) / 10)
    temp_outside := some ((unpackVal data STATE_INDEX_TEMP_OUTSIDE : ℚ) / 10)
    temp_out := some ((unpackVal data STATE_INDEX_TEMP_OUT : ℚ) / 10)
    co2 := some (unpackVal data STATE_INDEX_CO2)
    tvoc := some (unpackVal data STATE_INDEX_TVOC) }

/-- The claim's own description of the 14-bit unpack (C3): read the two
bytes at the offset as a big-endian signed 16-bit two's-complement integer,
then bitwise-AND the result with `0x3FFF` (mask applied after sign
extension). -/
def unpackClaim (b0 b1 : Nat) : Int :=
  let signed : Int := if b0 * 256 + b1 < 32768 then ((b0 * 256 + b1 : Nat) : Int)
    else ((b0 * 256 + b1 : Nat) : Int) - 65536
  Int.land signed 16383

/-- `PranaCommand.__init__`: payload is `COMMAND_PREFIX + bytes(command)`. -/
def pranaCommandPayload (opcodes : List Nat) : List Nat :=
  COMMAND_PREFIX_BYTES ++ opcodes

/-- `PranaSetCommand.SET_BYTE = 0x04`. -/
def SET_BYTE : Nat := 0x04

/-- `PranaSetCommand.__init__(last_byte)`: payload `prefix + [0x04, last_byte]`. -/
def pranaSetCommandPayload (lastByte : Nat) : List Nat :=
  pranaCommandPayload [SET_BYTE, lastByte]

/-- `TOGGLE = PranaSetCommand(0x0A)`. -/
def TOGGLE : List Nat := pranaSetCommandPayload 0x0A

/-- `TOGGLE_IN = PranaSetCommand(0x0D)`. -/
def TOGGLE_IN : List Nat := pranaSetCommandPayload 0x0D

/-- `TOGGLE_OUT = PranaSetCommand(0x10)`. -/
def TOGGLE_OUT : List Nat := pranaSetCommandPayload 0x10

/-- `SPEED_IN = {i: (TOGGLE_IN if i == 0 else PranaSetCommand(30 + i)) for i in
range(MAX_SPEED + 1)}`; dictionary lookup of a missing key fails (`none`). -/
def SPEED_IN (i : Nat) : Option (List Nat) :=
  if i ≤ MAX_SPEED then some (if i = 0 then TOGGLE_IN else pranaSetCommandPayload (30 + i))
  else none

/-- `SPEED_OUT = {i: (TOGGLE_OUT if i == 0 else PranaSetCommand(40 + i)) ...}`. -/
def SPEED_OUT (i : Nat) : Option (List Nat) :=
  if i ≤ MAX_SPEED then some (if i = 0 then TOGGLE_OUT else pranaSetCommandPayload (40 + i))
  else none

/-- `SPEED = {i: (TOGGLE if i == 0 else PranaSetCommand(50 + i)) ...}`. -/
def SPEED (i : Nat) : Option (List Nat) :=
  if i ≤ MAX_SPEED then some (if i = 0 then TOGGLE else pranaSetCommandPayload (50 + i))
  else none

/-- `_EXPECTED_STATE_BYTES = 100` from `src/coordinator.py`. -/
def EXPECTED_STATE_BYTES : Nat := 100

/-- Reassembler state of `PranaCoordinator`: the `_notify_buffer` accumulator
and the waiting consumer (`_notify_future`); `result = none` models a
registered, not yet resolved future, `result = some frame` a resolved one
(`future.done()`). -/
structure ReassemblyState where
  buffer : List Nat
  result : Option (List Nat)
deriving DecidableEq, Repr

/-- Fresh reassembler state: empty accumulator, waiting consumer. -/
def initReassembly : ReassemblyState := { buffer := [], result := none }

/-- `PranaCoordinator._ble_notification_handler` (lines 132–157) for one
chunk: no-op when the consumer is already satisfied or the chunk is empty;
discard a chunk whose first byte does not match the first byte of the
command start bytes while the accumulator is empty; append; reset the
accumulator on a start-bytes mismatch once two bytes are available;
deliver a copy of the whole accumulator and clear it once it holds at
least `_EXPECTED_STATE_BYTES` bytes. -/
def notificationStep (s : ReassemblyState) (chunk : List Nat) : ReassemblyState :=
  match s.result with
  | some _ => s
  | none =>
    if chunk = [] then s
    else if s.buffer = [] ∧ chunk.take 1 ≠ COMMAND_PREFIX_BYTES.take 1 then s
    else
      let buf := s.buffer ++ chunk
      if 2 ≤ buf.length ∧ buf.take 2 ≠ COMMAND_PREFIX_BYTES then
        { buffer := [], result := none }
      else if EXPECTED_STATE_BYTES ≤ buf.length then
        { buffer := [], result := some buf }
      else
        { buffer := buf, result := none }

/-- Feeding a sequence of notification chunks to the handler. -/
def runNotifications (s : ReassemblyState) (chunks : List (List Nat)) : ReassemblyState :=
  chunks.foldl notificationStep s

/-- Outcome of `client.write_gatt_char` in `_async_request_state_locked`. -/
inductive WriteOutcome where
  | writeOk
  | writeBleakError
deriving DecidableEq, Repr

/-- Outcome of `asyncio.wait_for(future, _NOTIFY_TIMEOUT)`: a delivered
payload, the 5-second timeout, or a `BleakError` set on the future (device
disconnected while waiting). -/
inductive NotifyOutcome where
  | delivered (payload : List Nat)
  | timedOut
  | notifyBleakError
deriving DecidableEq, Repr

/-- Errors surfaced by `_async_request_state_locked`: the `UpdateFailed`
raised on timeout, the `UpdateFailed` raised on a `BleakError`, the
`UpdateFailed("Invalid state payload")` raised when decoding fails with
`ValueError` (the spec's `MalformedFrame`), and any decode exception not
caught by the `except ValueError` clause. -/
inductive RequestFailure where
  | requestTimeout
  | transportError
  | malformedFrame
  | uncaughtDecodeError (e : UpdateErr)
deriving DecidableEq, Repr

/-- `PranaCoordinator._invalidate_client(client)` (lines 113–130), called
with an explicit non-None `client`, restricted to its effect on the stored
handle `_ble_client`: the stored handle is cleared (and the passed client
torn down) exactly when it is the passed client; otherwise it is left
unchanged.  Client handles are modelled by numeric identities. -/
def invalidateClient (stored : Option Nat) (client : Nat) : Option Nat :=
  if stored = some client then none else stored

/-- `PranaCoordinator._async_request_state_locked` (lines 210–242) as a
function of the transport outcomes: on a write `BleakError` or on a timeout
or a `BleakError` while awaiting the notification future, the pending
notification is failed, `_invalidate_client(client)` runs, and the error is
surfaced; on a delivered payload, `self.data.update(payload)` runs — a
`ValueError` there is surfaced as `UpdateFailed("Invalid state payload")`
with the stored client untouched, and a successful decode returns the new
state with the stored client untouched. -/
def requestStateLocked (stored : Option Nat) (client : Nat) (st : PranaState)
    (write : WriteOutcome) (notify : NotifyOutcome) :
    Except RequestFailure PranaState × Option Nat :=
  match write with
  | .writeBleakError => (.error .transportError, invalidateClient stored client)
  | .writeOk =>
    match notify with
    | .timedOut => (.error .requestTimeout, invalidateClient stored client)
    | .notifyBleakError => (.error .transportError, invalidateClient stored client)
    | .delivered payload =>
      match st.update payload with
      | .ok st' => (.ok st', stored)
      | .error .valueError => (.error .malformedFrame, stored)
      | .error e => (.error (.uncaughtDecodeError e), stored)

/-- A concrete valid 100-byte frame used by witnesses: correct start bytes,
power on, brightness raw `0x08`, flows unlocked, in-speed byte 30,
out-speed byte 50, temp-in halfword `0x00 0xC8`. -/
def validFrame : List Nat :=
  (List.range 100).map fun i =>
    if i = 0 then 0xBE else if i = 1 then 0xEF
    else if i = 10 then 1
    else if i = 12 then 8
    else if i = 30 then 30
    else if i = 34 then 50
    else if i = 49 then 200
    else 0

/-- A concrete valid 100-byte frame with all payload bytes zero (raw
brightness byte 0, flows unlocked, all speed bytes 0). -/
def plainFrame : List Nat := [0xBE, 0xEF] ++ List.replicate 98 0

/-- A 101-byte chunk with correct start bytes: one byte of surplus beyond
the expected 100-byte frame size. -/
def surplusChunk : List Nat := [0xBE, 0xEF] ++ List.replicate 99 1

/-- A 90-byte partially accumulated buffer with correct start bytes. -/
def bufNinety : List Nat := [0xBE, 0xEF] ++ List.replicate 88 0

/-- A 20-byte chunk that overshoots the 100-byte frame size when appended
to `bufNinety`. -/
def chunkTwenty : List Nat := List.replicate 20 7

instance {ε α : Type} [DecidableEq ε] [DecidableEq α] : DecidableEq (Except ε α) :=
  fun x y =>
    match x, y with
    | .ok a, .ok b =>
      if h : a = b then isTrue (h ▸ rfl) else isFalse fun hh => h (Except.ok.inj hh)
    | .error a, .error b =>
      if h : a = b then isTrue (h ▸ rfl) else isFalse fun hh => h (Except.error.inj hh)
    | .ok _, .error _ => isFalse fun hh => Except.noConfusion hh
    | .error _, .ok _ => isFalse fun hh => Except.noConfusion hh

/-! ## Helper lemmas -/

theorem byteE_ok {data : List Nat} {i : Nat} (h : i < data.length) :
    byteE data i = .ok (data.getD i 0) := by
  simp only [byteE, if_neg (by omega : ¬ data.length ≤ i)]

theorem byteE_err {data : List Nat} {i : Nat} (h : data.length ≤ i) :
    byteE data i = .error .indexError := by
  simp only [byteE, if_pos h]

theorem unpackE_ok {data : List Nat} {key : Nat} (h : key + 2 ≤ data.length) :
    unpackE data key = .ok (unpackVal data key) := by
  simp only [unpackE, unpackVal, if_neg (by omega : ¬ data.length < key + 2)]

theorem land_16383_nonneg (s : Int) : 0 ≤ Int.land s 16383 := by
  cases s with
  | ofNat m => exact Int.ofNat_nonneg _
  | negSucc m => exact Int.ofNat_nonneg _

theorem land_16383_le (s : Int) : Int.land s 16383 ≤ 16383 := by
  cases s with
  | ofNat m =>
    show (Int.ofNat (m &&& 16383)) ≤ 16383
    exact Int.ofNat_le.mpr Nat.and_le_right
  | negSucc m =>
    show (Int.ofNat (Nat.ldiff 16383 m)) ≤ 16383
    refine Int.ofNat_le.mpr (Nat.le_of_testBit fun i hi => ?_)
    rw [Nat.testBit_ldiff] at hi
    exact (Bool.and_eq_true _ _ |>.mp hi).1

theorem unpackVal_nonneg (data : List Nat) (key : Nat) : 0 ≤ unpackVal data key :=
  land_16383_nonneg _

theorem unpackVal_le (data : List Nat) (key : Nat) : unpackVal data key ≤ 16383 :=
  land_16383_le _

theorem modeE_ok {data : List Nat} (h : 21 ≤ data.length) :
    modeE data = .ok (decodeMode data) := by
  have h20 : STATE_INDEX_AUTO_MODE < data.length := by
    simp only [STATE_INDEX_AUTO_MODE]; omega
  have h18 : STATE_INDEX_BOOST_MODE < data.length := by
    simp only [STATE_INDEX_BOOST_MODE]; omega
  have h16 : STATE_INDEX_NIGHT_MODE < data.length := by
    simp only [STATE_INDEX_NIGHT_MODE]; omega
  simp only [modeE, byteE_ok h20, byteE_ok h18, byteE_ok h16, decodeMode,
    bind, Except.bind, pure, Except.pure]
  repeat' (first | rfl | split)

theorem speedE_ok {data : List Nat} (fl : Bool) (sIn sOut : Nat) (h : 27 ≤ data.length) :
    speedE data fl sIn sOut =
      .ok (if fl then data.getD STATE_INDEX_SPEED 0 / 10 else max sIn sOut) := by
  have h26 : STATE_INDEX_SPEED < data.length := by
    simp only [STATE_INDEX_SPEED]; omega
  cases fl <;>
    simp [speedE, byteE_ok h26, bind, Except.bind, pure, Except.pure]

theorem take_two_len {data : List Nat} (hpre : data.take 2 = COMMAND_PREFIX_BYTES) :
    2 ≤ data.length := by
  have h := congrArg List.length hpre
  simp only [List.length_take, COMMAND_PREFIX_BYTES, List.length_cons,
    List.length_nil] at h
  omega

theorem update_bad_start {st : PranaState} {data : List Nat}
    (h : data.take 2 ≠ COMMAND_PREFIX_BYTES) :
    st.update data = .error .valueError := by
  simp only [PranaState.update, if_pos h]

theorem update_ok {st : PranaState} {data : List Nat}
    (hpre : data.take 2 = COMMAND_PREFIX_BYTES) (hlen : 100 ≤ data.length) :
    st.update data = .ok (decodeFrame st data) := by
  have h10 : STATE_INDEX_POWER < data.length := by
    simp only [STATE_INDEX_POWER]; omega
  have h28 : STATE_INDEX_POWER_IN < data.length := by
    simp only [STATE_INDEX_POWER_IN]; omega
  have h32 : STATE_INDEX_POWER_OUT < data.length := by
    simp only [STATE_INDEX_POWER_OUT]; omega
  have h14 : STATE_INDEX_MINI_HEATING < data.length := by
    simp only [STATE_INDEX_MINI_HEATING]; omega
  have h42 : STATE_INDEX_WINTER_MODE < data.length := by
    simp only [STATE_INDEX_WINTER_MODE]; omega
  have h22 : STATE_INDEX_FLOWS_LOCKED < data.length := by
    simp only [STATE_INDEX_FLOWS_LOCKED]; omega
  have h30 : STATE_INDEX_SPEED_IN < data.length := by
    simp only [STATE_INDEX_SPEED_IN]; omega
  have h34 : STATE_INDEX_SPEED_OUT < data.length := by
    simp only [STATE_INDEX_SPEED_OUT]; omega
  have h12 : STATE_INDEX_BRIGHTNESS < data.length := by
    simp only [STATE_INDEX_BRIGHTNESS]; omega
  have h99 : STATE_INDEX_DISPLAY < data.length := by
    simp only [STATE_INDEX_DISPLAY]; omega
  have h60 : STATE_INDEX_HUMIDITY < data.length := by
    simp only [STATE_INDEX_HUMIDITY]; omega
  have h77 : STATE_INDEX_PRESSURE + 2 ≤ data.length := by
    simp only [STATE_INDEX_PRESSURE]; omega
  have h48 : STATE_INDEX_TEMP_IN + 2 ≤ data.length := by
    simp only [STATE_INDEX_TEMP_IN]; omega
  have h51 : STATE_INDEX_TEMP_OUTSIDE + 2 ≤ data.length := by
    simp only [STATE_INDEX_TEMP_OUTSIDE]; omega
  have h54 : STATE_INDEX_TEMP_OUT + 2 ≤ data.length := by
    simp only [STATE_INDEX_TEMP_OUT]; omega
  have h61 : STATE_INDEX_CO2 + 2 ≤ data.length := by
    simp only [STATE_INDEX_CO2]; omega
  have h63 : STATE_INDEX_TVOC + 2 ≤ data.length := by
    simp only [STATE_INDEX_TVOC]; omega
  have hmode := @modeE_ok data (by omega)
  have hspeed := fun fl sIn sOut => @speedE_ok data fl sIn sOut (by omega)
  simp only [PranaState.update, hpre, ne_eq, not_true_eq_false, if_false,
    byteE_ok h10, byteE_ok h28, byteE_ok h32, byteE_ok h14, byteE_ok h42,
    byteE_ok h22, byteE_ok h30, byteE_ok h34, byteE_ok h12, byteE_ok h99,
    byteE_ok h60, hmode, hspeed,
    unpackE_ok h77, unpackE_ok h48, unpackE_ok h51, unpackE_ok h54,
    unpackE_ok h61, unpackE_ok h63, bind, Except.bind, pure, Except.pure,
    decodeFrame, decide_eq_true_eq]

theorem update_short {st : PranaState} {data : List Nat}
    (hpre : data.take 2 = COMMAND_PREFIX_BYTES) (hlen : data.length < 100) :
    st.update data = .error .indexError := by
  rcases Nat.lt_or_ge data.length 11 with hA | hA
  · have e10 : byteE data STATE_INDEX_POWER = .error .indexError :=
      byteE_err (by simp only [STATE_INDEX_POWER]; omega)
    simp only [PranaState.update, hpre, ne_eq, not_true_eq_false, if_false,
      e10, bind, Except.bind]
  rcases Nat.lt_or_ge data.length 29 with hB | hB
  · have o10 := @byteE_ok data STATE_INDEX_POWER
      (by simp only [STATE_INDEX_POWER]; omega)
    have e28 : byteE data STATE_INDEX_POWER_IN = .error .indexError :=
      byteE_err (by simp only [STATE_INDEX_POWER_IN]; omega)
    simp only [PranaState.update, hpre, ne_eq, not_true_eq_false, if_false,
      o10, e28, bind, Except.bind]
  rcases Nat.lt_or_ge data.length 33 with hC | hC
  · have o10 := @byteE_ok data STATE_INDEX_POWER
      (by simp only [STATE_INDEX_POWER]; omega)
    have o28 := @byteE_ok data STATE_INDEX_POWER_IN
      (by simp only [STATE_INDEX_POWER_IN]; omega)
    have e32 : byteE data STATE_INDEX_POWER_OUT = .error .indexError :=
      byteE_err (by simp only [STATE_INDEX_POWER_OUT]; omega)
    simp only [PranaState.update, hpre, ne_eq, not_true_eq_false, if_false,
      o10, o28, e32, bind, Except.bind]
  rcases Nat.lt_or_ge data.length 43 with hD | hD
  · have o10 := @byteE_ok data STATE_INDEX_POWER
      (by simp only [STATE_INDEX_POWER]; omega)
    have o28 := @byteE_ok data STATE_INDEX_POWER_IN
      (by simp only [STATE_INDEX_POWER_IN]; omega)
    have o32 := @byteE_ok data STATE_INDEX_POWER_OUT
      (by simp only [STATE_INDEX_POWER_OUT]; omega)
    have o14 := @byteE_ok data STATE_INDEX_MINI_HEATING
      (by simp only [STATE_INDEX_MINI_HEATING]; omega)
    have e42 : byteE data STATE_INDEX_WINTER_MODE = .error .indexError :=
      byteE_err (by simp only [STATE_INDEX_WINTER_MODE]; omega)
    simp only [PranaState.update, hpre, ne_eq, not_true_eq_false, if_false,
      o10, o28, o32, o14, e42, bind, Except.bind]
  · have o10 := @byteE_ok data STATE_INDEX_POWER
      (by simp only [STATE_INDEX_POWER]; omega)
    have o28 := @byteE_ok data STATE_INDEX_POWER_IN
      (by simp only [STATE_INDEX_POWER_IN]; omega)
    have o32 := @byteE_ok data STATE_INDEX_POWER_OUT
      (by simp only [STATE_INDEX_POWER_OUT]; omega)
    have o14 := @byteE_ok data STATE_INDEX_MINI_HEATING
      (by simp only [STATE_INDEX_MINI_HEATING]; omega)
    have o42 := @byteE_ok data STATE_INDEX_WINTER_MODE
      (by simp only [STATE_INDEX_WINTER_MODE]; omega)
    have o22 := @byteE_ok data STATE_INDEX_FLOWS_LOCKED
      (by simp only [STATE_INDEX_FLOWS_LOCKED]; omega)
    have o30 := @byteE_ok data STATE_INDEX_SPEED_IN
      (by simp only [STATE_INDEX_SPEED_IN]; omega)
    have o34 := @byteE_ok data STATE_INDEX_SPEED_OUT
      (by simp only [STATE_INDEX_SPEED_OUT]; omega)
    have o12 := @byteE_ok data STATE_INDEX_BRIGHTNESS
      (by simp only [STATE_INDEX_BRIGHTNESS]; omega)
    have e99 : byteE data STATE_INDEX_DISPLAY = .error .indexError :=
      byteE_err (by simp only [STATE_INDEX_DISPLAY]; omega)
    have hmode := @modeE_ok data (by omega)
    have hspeed := fun fl sIn sOut => @speedE_ok data fl sIn sOut (by omega)
    simp only [PranaState.update, hpre, ne_eq, not_true_eq_false, if_false,
      o10, o28, o32, o14, o42, hmode, o22, o30, o34, hspeed, o12, e99,
      bind, Except.bind, pure, Except.pure]

/-! ## Claim theorems -/

/-- C1 (amended): decoding fails with the MalformedFrame `ValueError` exactly
when the buffer's first two bytes differ from `0xBE 0xEF` (in particular for
every buffer shorter than two bytes); a buffer with the correct start bytes
but fewer than 100 bytes fails with `IndexError`, not MalformedFrame; every
buffer of length ≥ 100 whose first two bytes equal the start bytes decodes
successfully. -/
theorem update_malformed_exactly_on_bad_start (st : PranaState) (data : List Nat) :
    (st.update data = .error .valueError ↔ data.take 2 ≠ COMMAND_PREFIX_BYTES)
    ∧ (data.take 2 = COMMAND_PREFIX_BYTES → data.length < 100 →
        st.update data = .error .indexError)
    ∧ (data.take 2 = COMMAND_PREFIX_BYTES → 100 ≤ data.length →
        ∃ s, st.update data = .ok s) := by
  refine ⟨⟨fun h => ?_, update_bad_start⟩,
    fun hp hl => update_short hp hl, fun hp hl => ⟨_, update_ok hp hl⟩⟩
  intro hpre
  rcases Nat.lt_or_ge data.length 100 with hl | hl
  · rw [update_short hpre hl] at h
    exact absurd (Except.error.inj h) (by decide)
  · rw [update_ok hpre hl] at h
    simp at h

/-- C1 witness: a concrete valid 100-byte frame decodes successfully. -/
theorem update_malformed_exactly_on_bad_start_witness :
    ∃ s, emptyPranaState.update validFrame = .ok s :=
  (update_malformed_exactly_on_bad_start emptyPranaState validFrame).2.2
    (by decide) (by decide)

/-- C1 counterexample: the two-byte buffer `0xBE 0xEF` is shorter than 100
bytes, yet decoding fails with `IndexError`, not with the MalformedFrame
`ValueError` the claim requires for every short buffer. -/
theorem update_malformed_exactly_on_bad_start_counterexample :
    emptyPranaState.update [0xBE, 0xEF] = .error .indexError
    ∧ UpdateErr.indexError ≠ UpdateErr.valueError := by
  decide

/-- C2: a valid frame decodes `speed_in` as byte 30 divided by 10 and
`speed_out` as byte 34 divided by 10 regardless of the lock byte; `speed`
is the max of the two when the flows-locked byte is 0 and byte 26 divided
by 10 otherwise. -/
theorem speed_fields_decode (st : PranaState) (data : List Nat)
    (hpre : data.take 2 = COMMAND_PREFIX_BYTES) (hlen : 100 ≤ data.length) :
    ∃ s, st.update data = .ok s
      ∧ s.speed_in = some (data.getD STATE_INDEX_SPEED_IN 0 / 10)
      ∧ s.speed_out = some (data.getD STATE_INDEX_SPEED_OUT 0 / 10)
      ∧ (data.getD STATE_INDEX_FLOWS_LOCKED 0 = 0 →
          s.speed = some (max (data.getD STATE_INDEX_SPEED_IN 0 / 10)
            (data.getD STATE_INDEX_SPEED_OUT 0 / 10)))
      ∧ (data.getD STATE_INDEX_FLOWS_LOCKED 0 ≠ 0 →
          s.speed = some (data.getD STATE_INDEX_SPEED 0 / 10)) := by
  refine ⟨_, update_ok hpre hlen, rfl, rfl, fun h => ?_, fun h => ?_⟩
  · simp only [decodeFrame]
    rw [if_neg (not_not.mpr h)]
  · simp only [decodeFrame]
    rw [if_pos h]

/-- C2 witness: the concrete frame has flows unlocked, in-speed byte 30 and
out-speed byte 50, and decodes to `speed_in = 3`, `speed_out = 5`,
`speed = max 3 5 = 5`. -/
theorem speed_fields_decode_witness :
    ∃ s, emptyPranaState.update validFrame = .ok s
      ∧ s.speed_in = some 3 ∧ s.speed_out = some 5 ∧ s.speed = some 5 := by
  obtain ⟨s, hok, hin, hout, hunlocked, _⟩ :=
    speed_fields_decode emptyPranaState validFrame (by decide) (by decide)
  exact ⟨s, hok, hin.trans (by decide), hout.trans (by decide),
    (hunlocked (by decide)).trans (by decide)⟩

/-- C3: the 14-bit unpack equals a big-endian signed 16-bit two's-complement
read followed by a bitwise AND with `0x3FFF` (mask applied after sign
extension); a valid frame decodes the three temperatures as the unpack at
offsets 48/51/54 divided by 10 and pressure/co2/tvoc as the unscaled unpack
at offsets 77/61/63; temp-in halfword `0x00 0xC8` gives `temp_in = 20`. -/
theorem unpack_masked_signed_fields (st : PranaState) (data : List Nat)
    (hpre : data.take 2 = COMMAND_PREFIX_BYTES) (hlen : 100 ≤ data.length) :
    (∀ key, key + 2 ≤ data.length →
      unpackE data key = .ok (unpackClaim (data.getD key 0) (data.getD (key + 1) 0)))
    ∧ ∃ s, st.update data = .ok s
      ∧ s.temp_in = some ((unpackClaim (data.getD 48 0) (data.getD 49 0) : ℚ) / 10)
      ∧ s.temp_outside = some ((unpackClaim (data.getD 51 0) (data.getD 52 0) : ℚ) / 10)
      ∧ s.temp_out = some ((unpackClaim (data.getD 54 0) (data.getD 55 0) : ℚ) / 10)
      ∧ s.pressure = some (unpackClaim (data.getD 77 0) (data.getD 78 0))
      ∧ s.co2 = some (unpackClaim (data.getD 61 0) (data.getD 62 0))
      ∧ s.tvoc = some (unpackClaim (data.getD 63 0) (data.getD 64 0))
      ∧ (data.getD 48 0 = 0 → data.getD 49 0 = 200 → s.temp_in = some 20) := by
  have hval : ∀ key, unpackVal data key =
      unpackClaim (data.getD key 0) (data.getD (key + 1) 0) := fun key => rfl
  refine ⟨fun key hk => (unpackE_ok hk).trans (by rw [hval]), _, update_ok hpre hlen,
    ?_, ?_, ?_, ?_, ?_, ?_, ?_⟩
  · simp [decodeFrame, hval, STATE_INDEX_TEMP_IN]
  · simp [decodeFrame, hval, STATE_INDEX_TEMP_OUTSIDE]
  · simp [decodeFrame, hval, STATE_INDEX_TEMP_OUT]
  · simp [decodeFrame, hval, STATE_INDEX_PRESSURE]
  · simp [decodeFrame, hval, STATE_INDEX_CO2]
  · simp [decodeFrame, hval, STATE_INDEX_TVOC]
  · intro h0 h200
    have hv200 : unpackVal data STATE_INDEX_TEMP_IN = 200 := by
      simp only [unpackVal, STATE_INDEX_TEMP_IN, h0, h200]
      decide
    simp only [decodeFrame, hv200]
    norm_num

/-- C3 witness: the concrete frame carries halfword `0x00 0xC8` at offset 48
and decodes to `temp_in = 20`. -/
theorem unpack_masked_signed_fields_witness :
    ∃ s, emptyPranaState.update validFrame = .ok s ∧ s.temp_in = some 20 := by
  obtain ⟨-, s, hok, -, -, -, -, -, -, hex⟩ :=
    unpack_masked_signed_fields emptyPranaState validFrame (by decide) (by decide)
  exact ⟨s, hok, hex (by decide) (by decide)⟩

/-- C4: a valid frame decodes brightness as 0 when the raw byte is 0 and as
`floor (log2 raw) + 1` otherwise; every power-of-two raw byte `2^k`
(`k ≤ 6`) gives `k + 1`. -/
theorem brightness_decode (st : PranaState) (data : List Nat)
    (hpre : data.take 2 = COMMAND_PREFIX_BYTES) (hlen : 100 ≤ data.length) :
    ∃ s, st.update data = .ok s
      ∧ s.brightness = some (if data.getD STATE_INDEX_BRIGHTNESS 0 = 0 then 0
          else Nat.log2 (data.getD STATE_INDEX_BRIGHTNESS 0) + 1)
      ∧ (data.getD STATE_INDEX_BRIGHTNESS 0 = 0 → s.brightness = some 0)
      ∧ (∀ k, k ≤ 6 → data.getD STATE_INDEX_BRIGHTNESS 0 = 2 ^ k →
          s.brightness = some (k + 1)) := by
  refine ⟨_, update_ok hpre hlen, rfl, fun h => ?_, fun k hk h => ?_⟩
  · simp only [decodeFrame]
    rw [if_pos h]
  · have hne : (2 : Nat) ^ k ≠ 0 := (pow_pos (by norm_num : (0:ℕ) < 2) k).ne'
    simp only [decodeFrame, h]
    rw [if_neg hne, Nat.log2_eq_log_two, Nat.log_pow (by norm_num : 1 < 2)]

/-- C4 witness: raw brightness byte `0x08` decodes to 4, raw byte `0x00`
decodes to 0. -/
theorem brightness_decode_witness :
    (∃ s, emptyPranaState.update validFrame = .ok s ∧ s.brightness = some 4)
    ∧ (∃ s, emptyPranaState.update plainFrame = .ok s ∧ s.brightness = some 0) := by
  constructor
  · obtain ⟨s, hok, -, -, hpow⟩ :=
      brightness_decode emptyPranaState validFrame (by decide) (by decide)
    exact ⟨s, hok, hpow 3 (by decide) (by decide)⟩
  · obtain ⟨s, hok, -, hz, -⟩ :=
      brightness_decode emptyPranaState plainFrame (by decide) (by decide)
    exact ⟨s, hok, hz (by decide)⟩

/-- C5: a valid frame decodes the mode by the fixed priority chain:
auto byte 1 → auto; else auto byte 2 → auto_plus; else boost byte 1 →
boost; else night byte 1 → night; else none — exactly one mode results and
an earlier flag always overrides all later ones. -/
theorem mode_priority (st : PranaState) (data : List Nat)
    (hpre : data.take 2 = COMMAND_PREFIX_BYTES) (hlen : 100 ≤ data.length) :
    ∃ s, st.update data = .ok s
      ∧ (data.getD STATE_INDEX_AUTO_MODE 0 = 1 → s.mode = some "auto")
      ∧ (data.getD STATE_INDEX_AUTO_MODE 0 ≠ 1 →
          data.getD STATE_INDEX_AUTO_MODE 0 = 2 → s.mode = some "auto_plus")
      ∧ (data.getD STATE_INDEX_AUTO_MODE 0 ≠ 1 →
          data.getD STATE_INDEX_AUTO_MODE 0 ≠ 2 →
          data.getD STATE_INDEX_BOOST_MODE 0 = 1 → s.mode = some "boost")
      ∧ (data.getD STATE_INDEX_AUTO_MODE 0 ≠ 1 →
          data.getD STATE_INDEX_AUTO_MODE 0 ≠ 2 →
          data.getD STATE_INDEX_BOOST_MODE 0 ≠ 1 →
          data.getD STATE_INDEX_NIGHT_MODE 0 = 1 → s.mode = some "night")
      ∧ (data.getD STATE_INDEX_AUTO_MODE 0 ≠ 1 →
          data.getD STATE_INDEX_AUTO_MODE 0 ≠ 2 →
          data.getD STATE_INDEX_BOOST_MODE 0 ≠ 1 →
          data.getD STATE_INDEX_NIGHT_MODE 0 ≠ 1 → s.mode = none) := by
  refine ⟨_, update_ok hpre hlen, fun h1 => ?_, fun h1 h2 => ?_,
    fun h1 h2 h3 => ?_, fun h1 h2 h3 h4 => ?_, fun h1 h2 h3 h4 => ?_⟩ <;>
    simp only [decodeFrame, decodeMode]
  · rw [if_pos h1]
  · rw [if_neg h1, if_pos h2]
  · rw [if_neg h1, if_neg h2, if_pos h3]
  · rw [if_neg h1, if_neg h2, if_neg h3, if_pos h4]
  · rw [if_neg h1, if_neg h2, if_neg h3, if_neg h4]

/-- C5 witness: all mode flag bytes zero decodes to no mode. -/
theorem mode_priority_witness :
    ∃ s, emptyPranaState.update plainFrame = .ok s ∧ s.mode = none := by
  obtain ⟨s, hok, -, -, -, -, hnone⟩ :=
    mode_priority emptyPranaState plainFrame (by decide) (by decide)
  exact ⟨s, hok, hnone (by decide) (by decide) (by decide) (by decide)⟩

/-- C6: for every level `1 ≤ L ≤ 10` the speed tables map `L` to the command
`prefix ++ [0x04, base + L]` with bases 50/30/40 for main/in/out, level 0
maps to the distinct toggle commands with opcode bytes 0x0A/0x0D/0x10, and
encoding any command is exactly the two prefix bytes followed by its opcode
bytes, with no failure mode. -/
theorem command_tables (L : Nat) (h1 : 1 ≤ L) (hL : L ≤ 10) :
    SPEED L = some (COMMAND_PREFIX_BYTES ++ [SET_BYTE, 50 + L])
    ∧ SPEED_IN L = some (COMMAND_PREFIX_BYTES ++ [SET_BYTE, 30 + L])
    ∧ SPEED_OUT L = some (COMMAND_PREFIX_BYTES ++ [SET_BYTE, 40 + L])
    ∧ SPEED 0 = some (COMMAND_PREFIX_BYTES ++ [SET_BYTE, 0x0A])
    ∧ SPEED_IN 0 = some (COMMAND_PREFIX_BYTES ++ [SET_BYTE, 0x0D])
    ∧ SPEED_OUT 0 = some (COMMAND_PREFIX_BYTES ++ [SET_BYTE, 0x10])
    ∧ ∀ opcodes, pranaCommandPayload opcodes = COMMAND_PREFIX_BYTES ++ opcodes := by
  have hne : L ≠ 0 := by omega
  have hle : L ≤ MAX_SPEED := by simp only [MAX_SPEED]; omega
  refine ⟨?_, ?_, ?_, by decide, by decide, by decide, fun _ => rfl⟩ <;>
    simp [SPEED, SPEED_IN, SPEED_OUT, hle, hne, TOGGLE, TOGGLE_IN, TOGGLE_OUT,
      pranaSetCommandPayload, pranaCommandPayload, SET_BYTE, COMMAND_PREFIX_BYTES]

/-- C6 witness: level 7 maps to opcode bytes 57/37/47 in the three tables. -/
theorem command_tables_witness :
    SPEED 7 = some [0xBE, 0xEF, 0x04, 57]
    ∧ SPEED_IN 7 = some [0xBE, 0xEF, 0x04, 37]
    ∧ SPEED_OUT 7 = some [0xBE, 0xEF, 0x04, 47] := by
  obtain ⟨hs, hi, ho, -⟩ := command_tables 7 (by decide) (by decide)
  exact ⟨hs.trans (by decide), hi.trans (by decide), ho.trans (by decide)⟩

/-- C10: the 14-bit unpack always yields a value in `[0, 16383]` (the mask
is applied after sign extension, so the result is never negative), and every
successfully decoded state has non-negative pressure, co2, tvoc and
non-negative temperatures — sub-zero temperatures cannot be represented. -/
theorem unpack_range_nonneg_fields :
    (∀ data key r, unpackE data key = .ok r → 0 ≤ r ∧ r ≤ 16383)
    ∧ (∀ (st : PranaState) (data : List Nat) (s : PranaState),
        st.update data = .ok s →
        (∀ x, s.pressure = some x → 0 ≤ x)
        ∧ (∀ x, s.co2 = some x → 0 ≤ x)
        ∧ (∀ x, s.tvoc = some x → 0 ≤ x)
        ∧ (∀ q, s.temp_in = some q → 0 ≤ q)
        ∧ (∀ q, s.temp_out = some q → 0 ≤ q)
        ∧ (∀ q, s.temp_outside = some q → 0 ≤ q)) := by
  have hq : ∀ data key, (0 : ℚ) ≤ (unpackVal data key : ℚ) / 10 := fun data key =>
    div_nonneg (by exact_mod_cast unpackVal_nonneg data key) (by norm_num)
  constructor
  · intro data key r h
    by_cases hk : data.length < key + 2
    · rw [unpackE, if_pos hk] at h
      exact absurd h (fun hh => Except.noConfusion hh)
    · rw [unpackE_ok (by omega)] at h
      cases Except.ok.inj h
      exact ⟨unpackVal_nonneg _ _, unpackVal_le _ _⟩
  · intro st data s h
    by_cases hpre : data.take 2 = COMMAND_PREFIX_BYTES
    · rcases Nat.lt_or_ge data.length 100 with hl | hl
      · rw [update_short hpre hl] at h
        exact absurd h (fun hh => Except.noConfusion hh)
      · rw [update_ok hpre hl] at h
        cases Except.ok.inj h
        refine ⟨fun x hx => ?_, fun x hx => ?_, fun x hx => ?_,
          fun q hq' => ?_, fun q hq' => ?_, fun q hq' => ?_⟩
        · simp only [decodeFrame] at hx
          cases Option.some.inj hx
          exact unpackVal_nonneg _ _
        · simp only [decodeFrame] at hx
          cases Option.some.inj hx
          exact unpackVal_nonneg _ _
        · simp only [decodeFrame] at hx
          cases Option.some.inj hx
          exact unpackVal_nonneg _ _
        · simp only [decodeFrame] at hq'
          cases Option.some.inj hq'
          exact hq _ _
        · simp only [decodeFrame] at hq'
          cases Option.some.inj hq'
          exact hq _ _
        · simp only [decodeFrame] at hq'
          cases Option.some.inj hq'
          exact hq _ _
    · rw [update_bad_start hpre] at h
      exact absurd h (fun hh => Except.noConfusion hh)

/-- C10 witness: the unpack of the concrete frame at the temp-in offset is
200, which the theorem places in `[0, 16383]`. -/
theorem unpack_range_nonneg_fields_witness :
    (0 : Int) ≤ 200 ∧ (200 : Int) ≤ 16383 :=
  unpack_range_nonneg_fields.1 validFrame 48 200 (by decide)

/-! ## Reassembler lemmas -/

theorem prefix_take_eq {l t frame : List Nat} (hfr : l ++ t = frame) {n : Nat}
    (hn : n ≤ l.length) : frame.take n = l.take n := by
  subst hfr
  rw [List.take_append_eq_append_take, Nat.sub_eq_zero_of_le hn, List.take_zero,
    List.append_nil]

theorem runNotifications_cons (s : ReassemblyState) (c : List Nat) (cs : List (List Nat)) :
    runNotifications s (c :: cs) = runNotifications (notificationStep s c) cs := rfl

theorem step_stray {chunk : List Nat}
    (h : chunk.take 1 ≠ COMMAND_PREFIX_BYTES.take 1) :
    notificationStep initReassembly chunk = initReassembly := by
  by_cases hc : chunk = []
  · subst hc
    rfl
  · simp [notificationStep, initReassembly, hc, h]

theorem step_mid {b c : List Nat} (hc : c ≠ [])
    (hstart : ¬(b = [] ∧ c.take 1 ≠ COMMAND_PREFIX_BYTES.take 1))
    (hpre : ¬(2 ≤ (b ++ c).length ∧ (b ++ c).take 2 ≠ COMMAND_PREFIX_BYTES)) :
    notificationStep ⟨b, none⟩ c =
      if EXPECTED_STATE_BYTES ≤ (b ++ c).length then ⟨[], some (b ++ c)⟩
      else ⟨b ++ c, none⟩ := by
  simp only [notificationStep, if_neg hc, if_neg hstart, if_neg hpre]

theorem run_strays (chunks : List (List Nat)) :
    ∀ strays, (∀ s ∈ strays, s.take 1 ≠ COMMAND_PREFIX_BYTES.take 1) →
    runNotifications initReassembly (strays ++ chunks) =
      runNotifications initReassembly chunks := by
  intro strays
  induction strays with
  | nil => intro _; rfl
  | cons s ss ihs =>
    intro h
    rw [List.cons_append, runNotifications_cons, step_stray (h s (by simp))]
    exact ihs fun x hx => h x (by simp [hx])

theorem run_partition {frame : List Nat} (hlen : frame.length = 100)
    (hpre2 : frame.take 2 = COMMAND_PREFIX_BYTES) (chunks : List (List Nat)) :
    ∀ b, chunks ≠ [] → (∀ c ∈ chunks, c ≠ []) → b ++ chunks.flatten = frame →
      runNotifications ⟨b, none⟩ chunks = ⟨[], some frame⟩ := by
  induction chunks with
  | nil => exact fun b hne _ _ => absurd rfl hne
  | cons c rest ih =>
    intro b _ hall hjoin
    have hc : c ≠ [] := hall c (List.mem_cons_self c rest)
    have hclen : 1 ≤ c.length := List.length_pos.mpr hc
    have hjoin' : (b ++ c) ++ rest.flatten = frame := by
      simpa [List.flatten_cons, List.append_assoc] using hjoin
    have f1 : ¬(b = [] ∧ c.take 1 ≠ COMMAND_PREFIX_BYTES.take 1) := by
      rintro ⟨hb, hc1⟩
      subst hb
      have h1 : frame.take 1 = c.take 1 :=
        prefix_take_eq (by simpa using hjoin') hclen
      have h2 : frame.take 1 = COMMAND_PREFIX_BYTES.take 1 := by
        have := congrArg (List.take 1) hpre2
        rwa [List.take_take, show min 1 2 = 1 by norm_num] at this
      exact hc1 (h1 ▸ h2)
    have f2 : ¬(2 ≤ (b ++ c).length ∧ (b ++ c).take 2 ≠ COMMAND_PREFIX_BYTES) := by
      rintro ⟨hl2, hne2⟩
      exact hne2 ((prefix_take_eq hjoin' hl2) ▸ hpre2)
    rw [runNotifications_cons, step_mid hc f1 f2]
    cases rest with
    | nil =>
      have hbc : b ++ c = frame := by simpa using hjoin'
      rw [hbc, if_pos (by simp only [EXPECTED_STATE_BYTES]; omega)]
      rfl
    | cons r rs =>
      have hr : r ≠ [] := hall r (by simp)
      have hrlen : 1 ≤ r.length := List.length_pos.mpr hr
      have hlt : (b ++ c).length < 100 := by
        have hl := congrArg List.length hjoin'
        simp only [List.length_append, List.flatten_cons, hlen] at hl
        simp only [List.length_append]
        omega
      rw [if_neg (by simp only [EXPECTED_STATE_BYTES]; omega)]
      exact ih (b ++ c) (by simp) (fun x hx => hall x (List.mem_cons_of_mem c hx))
        hjoin'

/-! ## Reassembler claim theorems -/

/-- C7: feeding a valid 100-byte frame to the notification handler as any
in-order partition into non-empty chunks, while one consumer is waiting,
delivers exactly the frame (so the decoded state equals decoding the frame
whole), and stray chunks delivered beforehand whose first byte is not the
first start byte are discarded with the accumulator left empty, without
altering the delivered frame. -/
theorem reassembly_partition_invariance (frame : List Nat)
    (strays chunks : List (List Nat))
    (hlen : frame.length = 100) (hpre2 : frame.take 2 = COMMAND_PREFIX_BYTES)
    (hne : chunks ≠ []) (hall : ∀ c ∈ chunks, c ≠ [])
    (hjoin : chunks.flatten = frame)
    (hstrays : ∀ s ∈ strays, s.take 1 ≠ COMMAND_PREFIX_BYTES.take 1) :
    runNotifications initReassembly (strays ++ chunks) = ⟨[], some frame⟩
    ∧ ∀ (st : PranaState) (d : List Nat),
        runNotifications initReassembly (strays ++ chunks) = ⟨[], some d⟩ →
        st.update d = st.update frame := by
  have h1 : runNotifications initReassembly (strays ++ chunks) = ⟨[], some frame⟩ :=
    (run_strays chunks strays hstrays).trans
      (run_partition hlen hpre2 chunks [] hne hall (by simpa using hjoin))
  refine ⟨h1, fun st d hd => ?_⟩
  have h2 : (some frame : Option (List Nat)) = some d :=
    congrArg ReassemblyState.result (h1.symm.trans hd)
  cases Option.some.inj h2
  rfl

/-- C7 witness: two stray bytes, then the concrete valid frame in a 50/50
split, deliver exactly that frame. -/
theorem reassembly_partition_invariance_witness :
    runNotifications initReassembly
      ([[0x01, 0x02]] ++ [validFrame.take 50, validFrame.drop 50]) =
      ⟨[], some validFrame⟩ :=
  (reassembly_partition_invariance validFrame [[0x01, 0x02]]
    [validFrame.take 50, validFrame.drop 50] (by decide) (by decide) (by decide)
    (by decide) (by decide) (by decide)).1

/-- C8 (amended): whenever a chunk brings the accumulator to at least 100
bytes (with the accumulated bytes still starting with the two start bytes),
the handler emits the ENTIRE accumulated buffer — including any surplus
beyond 100 bytes — to the waiting consumer, and then clears the
accumulator, so surplus bytes never appear in the next frame's reassembly. -/
theorem step_emits_whole_buffer (s : ReassemblyState) (chunk : List Nat)
    (hwait : s.result = none) (hc : chunk ≠ [])
    (hpre : (s.buffer ++ chunk).take 2 = COMMAND_PREFIX_BYTES)
    (hlen : 100 ≤ (s.buffer ++ chunk).length) :
    notificationStep s chunk = ⟨[], some (s.buffer ++ chunk)⟩ := by
  obtain ⟨b, r⟩ := s
  simp only at hwait hpre hlen
  subst hwait
  have hstart : ¬(b = [] ∧ chunk.take 1 ≠ COMMAND_PREFIX_BYTES.take 1) := by
    rintro ⟨hb, h1⟩
    subst hb
    have h2 : chunk.take 2 = COMMAND_PREFIX_BYTES := by simpa using hpre
    have h3 := congrArg (List.take 1) h2
    rw [List.take_take, show min 1 2 = 1 by norm_num] at h3
    exact h1 h3
  have hpr : ¬(2 ≤ (b ++ chunk).length ∧ (b ++ chunk).take 2 ≠ COMMAND_PREFIX_BYTES) :=
    fun hh => hh.2 hpre
  rw [step_mid hc hstart hpr, if_pos (by simp only [EXPECTED_STATE_BYTES]; omega)]

/-- C8 witness: a 90-byte accumulator plus a 20-byte chunk emits all 110
bytes and clears the accumulator. -/
theorem step_emits_whole_buffer_witness :
    notificationStep ⟨bufNinety, none⟩ chunkTwenty =
      ⟨[], some (bufNinety ++ chunkTwenty)⟩ :=
  step_emits_whole_buffer ⟨bufNinety, none⟩ chunkTwenty rfl (by decide)
    (by decide) (by decide)

/-- C8 counterexample: a single 101-byte chunk with correct start bytes
completes a frame, but the handler emits all 101 accumulated bytes — not
exactly the first 100 bytes as the claim states. -/
theorem step_emits_whole_buffer_counterexample :
    notificationStep initReassembly surplusChunk = ⟨[], some surplusChunk⟩
    ∧ surplusChunk ≠ surplusChunk.take 100 := by
  decide

/-- C9: in the locked state request, a write failure and the notification
timeout clear the stored client handle (forcing reconnection on next use)
before surfacing the error, while a decode failure on a received frame is
surfaced as the MalformedFrame error with the stored client handle left
unchanged. -/
theorem request_state_error_policy (client : Nat) (st : PranaState)
    (notify : NotifyOutcome) (payload : List Nat) :
    requestStateLocked (some client) client st .writeBleakError notify =
      (.error .transportError, none)
    ∧ requestStateLocked (some client) client st .writeOk .timedOut =
      (.error .requestTimeout, none)
    ∧ (payload.take 2 ≠ COMMAND_PREFIX_BYTES →
      requestStateLocked (some client) client st .writeOk (.delivered payload) =
        (.error .malformedFrame, some client)) := by
  refine ⟨?_, ?_, fun h => ?_⟩
  · simp [requestStateLocked, invalidateClient]
  · simp [requestStateLocked, invalidateClient]
  · simp [requestStateLocked, update_bad_start h]

/-- C9 witness: a delivered one-byte payload with a wrong start byte yields
the MalformedFrame error and leaves the stored client handle in place. -/
theorem request_state_error_policy_witness :
    requestStateLocked (some 0) 0 emptyPranaState .writeOk (.delivered [0x00]) =
      (.error .malformedFrame, some 0) :=
  (request_state_error_policy 0 emptyPranaState .timedOut [0x00]).2.2 (by decide)
